import Mathlib

/-! Renesas RA IIC slave driver and the EK-RA4M2 I2C bridge sample.

A shallow embedding of

* `drivers/i2c/i2c_renesas_ra_iic_slave.c`: the target registration slot
  (`i2c_ra_iic_slave_target_register`, `i2c_ra_iic_slave_target_unregister`) and the
  event handler `iic_slave_callback`;
* `boards/renesas/ek_ra4m2/samples/i2c_combined_example.c`: the bridge handler
  `i2c_slave_callback` with its two 32-byte buffers.

Pointers to `struct i2c_target_config` are addresses (`Nat`, `0` is `NULL`).  Code that
is called but lives outside these files (the vendor HAL, the target's handlers, the bus
primitives of the sample) is taken as a parameter.
-/

namespace IicSlave

/-! ## Driver: data model -/

/-- The null pointer. -/
def NULL : Nat := 0

/-- Value of `EIO` in `errno.h`. -/
def EIO : Int := 5

/-- Value of `EBUSY` in `errno.h`. -/
def EBUSY : Int := 16

/-- Value of `EINVAL` in `errno.h`. -/
def EINVAL : Int := 22

/-- Value of `FSP_SUCCESS` of the vendor type `fsp_err_t`. -/
def FSP_SUCCESS : Int := 0

/-- The peripheral event carried by `p_args->event`.  The six named constructors are the
case labels of the `switch` in `iic_slave_callback`; `other code` is any event code that
is none of them and therefore reaches `default:`. -/
inductive i2c_slave_event_t where
  | I2C_SLAVE_EVENT_RX_REQUEST
  | I2C_SLAVE_EVENT_GENERAL_CALL
  | I2C_SLAVE_EVENT_TX_REQUEST
  | I2C_SLAVE_EVENT_RX_COMPLETE
  | I2C_SLAVE_EVENT_TX_COMPLETE
  | I2C_SLAVE_EVENT_ABORTED
  | other (code : Nat)
  deriving DecidableEq, Repr

/-- The members of `struct i2c_target_callbacks` the driver reads.  Each is a function
pointer that may be `NULL` (`none`).  A handler receives the configuration pointer and
acts on the application state `U`; it returns the new state and its `int` result, and
`read_requested` also the byte it stores through `val`. -/
structure i2c_target_callbacks (U : Type) where
  write_requested : Option (Nat → U → U × Int)
  read_requested : Option (Nat → U → U × Nat × Int)
  stop : Option (Nat → U → U × Int)

/-- The member of `struct i2c_target_config` the driver reads: the pointer to the
callback table, which may be `NULL` (`none`). -/
structure i2c_target_config (U : Type) where
  callbacks : Option (i2c_target_callbacks U)

/-- The function pointers this driver hands to the HAL as low-level callback. -/
inductive fsp_callback where
  | iic_slave_callback
  deriving DecidableEq, Repr

/-- The fields of `struct i2c_ra_iic_slave_data` that registration and event handling
touch: the HAL control block `ctrl` and the registration slot `target_config`. -/
structure i2c_ra_iic_slave_data (Ctrl : Type) where
  ctrl : Ctrl
  target_config : Nat

/-- The HAL entry point `R_IIC_SLAVE_CallbackSet(&data->ctrl, p_callback, &data->ctrl,
NULL)`.  It belongs to the vendor HAL, so it is a parameter: from the control block and
the callback to install it yields the updated control block and an `fsp_err_t`. -/
structure Hal (Ctrl : Type) where
  R_IIC_SLAVE_CallbackSet : Ctrl → fsp_callback → Ctrl × Int

/-! ## Driver: operations -/

/-- The FSP callback handler `iic_slave_callback`.  `mem` reads the configuration stored
at an address, `data` is the instance found through `p_args->p_context`, `w` is the
application state the handlers act on.  Handler results are discarded, as in the source. -/
def iic_slave_callback {U Ctrl : Type} (mem : Nat → i2c_target_config U)
    (data : i2c_ra_iic_slave_data Ctrl) (event : i2c_slave_event_t) (w : U) : U :=
  if data.target_config = NULL then w
  else
    match (mem data.target_config).callbacks with
    | none => w
    | some cbs =>
      match event with
      | .I2C_SLAVE_EVENT_RX_REQUEST | .I2C_SLAVE_EVENT_GENERAL_CALL =>
        match cbs.write_requested with
        | some f => (f data.target_config w).1
        | none => w
      | .I2C_SLAVE_EVENT_TX_REQUEST =>
        match cbs.read_requested with
        | some f => (f data.target_config w).1
        | none => w
      | .I2C_SLAVE_EVENT_RX_COMPLETE =>
        match cbs.stop with
        | some f => (f data.target_config w).1
        | none => w
      | .I2C_SLAVE_EVENT_TX_COMPLETE =>
        match cbs.stop with
        | some f => (f data.target_config w).1
        | none => w
      | .I2C_SLAVE_EVENT_ABORTED =>
        match cbs.stop with
        | some f => (f data.target_config w).1
        | none => w
      | .other _ => w

/-- The driver API `i2c_ra_iic_slave_target_register`: the instance data afterwards and
the returned `int`. -/
def i2c_ra_iic_slave_target_register {Ctrl : Type} (hal : Hal Ctrl)
    (data : i2c_ra_iic_slave_data Ctrl) (cfg : Nat) : i2c_ra_iic_slave_data Ctrl × Int :=
  if data.target_config ≠ NULL then (data, - EBUSY)
  else
    let data1 : i2c_ra_iic_slave_data Ctrl := { data with target_config := cfg }
    let r := hal.R_IIC_SLAVE_CallbackSet data1.ctrl fsp_callback.iic_slave_callback
    let data2 : i2c_ra_iic_slave_data Ctrl := { data1 with ctrl := r.1 }
    if r.2 ≠ FSP_SUCCESS then ({ data2 with target_config := NULL }, - EIO)
    else (data2, 0)

/-- The driver API `i2c_ra_iic_slave_target_unregister`: the instance data afterwards
and the returned `int`. -/
def i2c_ra_iic_slave_target_unregister {Ctrl : Type}
    (data : i2c_ra_iic_slave_data Ctrl) (cfg : Nat) : i2c_ra_iic_slave_data Ctrl × Int :=
  if data.target_config ≠ cfg then (data, - EINVAL)
  else ({ data with target_config := NULL }, 0)

/-! ## Driver: concrete targets used to exercise the model -/

/-- One handler invocation, as recorded by `logging_callbacks`. -/
inductive Invocation where
  | write_requested (cfg : Nat)
  | read_requested (cfg : Nat)
  | stop (cfg : Nat)
  deriving DecidableEq, Repr

/-- A full callback set whose handlers append their own invocation to a log; the
`read_requested` handler stores the byte `0x5A`. -/
def logging_callbacks : i2c_target_callbacks (List Invocation) where
  write_requested := some (fun cfg w => (w ++ [Invocation.write_requested cfg], 0))
  read_requested := some (fun cfg w => (w ++ [Invocation.read_requested cfg], 0x5A, 0))
  stop := some (fun cfg w => (w ++ [Invocation.stop cfg], 0))

/-- A memory in which every configuration points to `logging_callbacks`. -/
def logging_mem : Nat → i2c_target_config (List Invocation) :=
  fun _ => { callbacks := some logging_callbacks }

/-- A HAL whose control block is the installed callback and whose `CallbackSet`
succeeds. -/
def hal_ok : Hal (Option fsp_callback) where
  R_IIC_SLAVE_CallbackSet := fun _ cb => (some cb, FSP_SUCCESS)

/-- A HAL whose `CallbackSet` reports an error (the control block is not open) and
leaves the control block as it is. -/
def hal_not_open : Hal (Option fsp_callback) where
  R_IIC_SLAVE_CallbackSet := fun ctrl _ => (ctrl, 7)

end IicSlave

namespace Bridge

/-! ## Bridge sample: data model -/

/-- Capacity of `command_buffer`. -/
def COMMAND_BUFFER_SIZE : Nat := 32

/-- Capacity of `response_buffer`. -/
def RESPONSE_BUFFER_SIZE : Nat := 32

/-- Conversion of an `int` result to `size_t`, 32 bits wide on the Cortex-M33 of the
EK-RA4M2: the value modulo `2 ^ 32`. -/
def size_t_of_int (r : Int) : Nat := (r % 2 ^ 32).toNat

/-- The file-scope variables of the sample: the two byte buffers and their recorded
lengths (`size_t`). -/
structure State where
  command_buffer : List Nat
  command_length : Nat
  response_buffer : List Nat
  response_length : Nat
  deriving DecidableEq, Repr

/-- The `event` argument of `i2c_slave_callback`.  The four named constructors are the
case labels of its `switch`; `other code` is any other value and reaches `default:`. -/
inductive Event where
  | I2C_SLAVE_EVENT_WRITE_RECEIVED
  | I2C_SLAVE_EVENT_READ_REQUESTED
  | I2C_SLAVE_EVENT_STOP
  | I2C_SLAVE_EVENT_ADDRESS_NACK
  | other (code : Nat)
  deriving DecidableEq, Repr

/-- A call of a bus primitive made by the handler, with the arguments it was given.  For
a primitive that reads from a buffer, `buf` holds the `len` bytes the pointer argument
designates inside the buffer. -/
inductive BusCall where
  | i2c_slave_read (max_len : Nat)
  | i2c_write (buf : List Nat) (num_bytes : Nat) (addr : Nat)
  | i2c_read (max_len : Nat) (addr : Nat)
  | i2c_slave_write (buf : List Nat) (len : Nat)
  deriving DecidableEq, Repr

/-- The answers of the bus primitives, which are defined outside the sample.
`i2c_slave_read buf max_len` and `i2c_read buf max_len addr` give the buffer contents
after the call and the returned value; `i2c_write buf num_bytes addr` gives the returned
`int`.  The result of `i2c_slave_write` is not used by the handler. -/
structure Bus where
  i2c_slave_read : List Nat → Nat → List Nat × Int
  i2c_write : List Nat → Nat → Nat → Int
  i2c_read : List Nat → Nat → Nat → List Nat × Int

/-- The array `uint8_t status[] = "RA4M2 I2C Bridge Ready"`: the characters followed by
the terminating NUL. -/
def status : List Nat := "RA4M2 I2C Bridge Ready".toList.map Char.toNat ++ [0]

/-! ## Bridge sample: the handler -/

/-- The handler `i2c_slave_callback` of `i2c_combined_example.c`: the variables
afterwards and the bus primitives called, in order. -/
def i2c_slave_callback (bus : Bus) (s : State) (event : Event) : State × List BusCall :=
  match event with
  | .I2C_SLAVE_EVENT_WRITE_RECEIVED =>
    let rd := bus.i2c_slave_read s.command_buffer COMMAND_BUFFER_SIZE
    let s1 : State := { s with command_buffer := rd.1, command_length := size_t_of_int rd.2 }
    let t1 : List BusCall := [BusCall.i2c_slave_read COMMAND_BUFFER_SIZE]
    if s1.command_length > 0 then
      let sensor_addr := s1.command_buffer.getD 0 0
      let payload := (s1.command_buffer.drop 1).take (s1.command_length - 1)
      let ret := bus.i2c_write payload (s1.command_length - 1) sensor_addr
      let t2 := t1 ++ [BusCall.i2c_write payload (s1.command_length - 1) sensor_addr]
      if ret ≠ 0 then (s1, t2)
      else
        let rr := bus.i2c_read s1.response_buffer RESPONSE_BUFFER_SIZE sensor_addr
        let s2 : State :=
          { s1 with response_buffer := rr.1, response_length := size_t_of_int rr.2 }
        let t3 := t2 ++ [BusCall.i2c_read RESPONSE_BUFFER_SIZE sensor_addr]
        if s2.response_length > 0 then
          (s2, t3 ++ [BusCall.i2c_slave_write (s2.response_buffer.take s2.response_length)
                        s2.response_length])
        else (s2, t3)
    else (s1, t1)
  | .I2C_SLAVE_EVENT_READ_REQUESTED =>
    (s, [BusCall.i2c_slave_write (status.take (status.length - 1)) (status.length - 1)])
  | .I2C_SLAVE_EVENT_STOP => (s, [])
  | .I2C_SLAVE_EVENT_ADDRESS_NACK => (s, [])
  | .other _ => (s, [])

/-- Membership test: the call is a master write `i2c_write`. -/
def BusCall.is_i2c_write : BusCall → Bool
  | .i2c_write _ _ _ => true
  | _ => false

/-! ## Bridge sample: concrete buses used to exercise the model -/

/-- The variables at start-up: zeroed buffers of 32 bytes, lengths 0. -/
def initial : State where
  command_buffer := List.replicate 32 0
  command_length := 0
  response_buffer := List.replicate 32 0
  response_length := 0

/-- The bus of the file header: the host wrote `[0x10, 0x01]`, the master write
succeeds, the sensor answers `[0xAA, 0xBB, 0xCC, 0xDD]`. -/
def bus_header : Bus where
  i2c_slave_read := fun _ _ => ([0x10, 0x01] ++ List.replicate 30 0, 2)
  i2c_write := fun _ _ _ => 0
  i2c_read := fun _ _ _ => ([0xAA, 0xBB, 0xCC, 0xDD] ++ List.replicate 28 0, 4)

/-- A bus on which the host wrote the single byte `[0x10]`. -/
def bus_address_only : Bus where
  i2c_slave_read := fun _ _ => ([0x10] ++ List.replicate 31 0, 1)
  i2c_write := fun _ _ _ => 0
  i2c_read := fun buf _ _ => (buf, 0)

/-- A bus on which the host wrote `[0x10, 0x01]`, the master write succeeds and the
master read fails with `-EIO` (`-5`), leaving the buffer as it is. -/
def bus_read_error : Bus where
  i2c_slave_read := fun _ _ => ([0x10, 0x01] ++ List.replicate 30 0, 2)
  i2c_write := fun _ _ _ => 0
  i2c_read := fun buf _ _ => (buf, -5)

end Bridge


/-! ## Further definitions: one event delivery, more concrete inputs -/

namespace IicSlave

/-- Everything one call `iic_slave_callback(p_args)` leaves behind.  The function
returns `void` and no branch of it assigns to a field of `data`, so the instance data
afterwards is the one it was given and the application state is the one
`iic_slave_callback` computes. -/
def iic_slave_callback_effect {U Ctrl : Type} (mem : Nat → i2c_target_config U)
    (data : i2c_ra_iic_slave_data Ctrl) (event : i2c_slave_event_t) (w : U) :
    i2c_ra_iic_slave_data Ctrl × U :=
  (data, iic_slave_callback mem data event w)

/-- A callback table with a `read_requested` handler only: the handler logs its
invocation and stores the byte `b` through `val`. -/
def byte_callbacks (b : Nat) : i2c_target_callbacks (List Invocation) where
  write_requested := none
  read_requested := some (fun cfg w => (w ++ [Invocation.read_requested cfg], b, 0))
  stop := none

/-- A memory in which every configuration points to `byte_callbacks b`. -/
def byte_mem (b : Nat) : Nat → i2c_target_config (List Invocation) :=
  fun _ => { callbacks := some (byte_callbacks b) }

end IicSlave

namespace Bridge

/-- A bus on which the host wrote `[0x10, 0x01]` and the master write fails with `-EIO`
(`-5`); a master read, were it issued, would be answered with four bytes. -/
def bus_write_error : Bus where
  i2c_slave_read := fun _ _ => ([0x10, 0x01] ++ List.replicate 30 0, 2)
  i2c_write := fun _ _ _ => -5
  i2c_read := fun _ _ _ => ([0xAA, 0xBB, 0xCC, 0xDD] ++ List.replicate 28 0, 4)

/-- The variables after an earlier cycle that buffered the reply `[0x01, 0x02, 0x03]`. -/
def after_reply : State where
  command_buffer := [0x20, 0x07] ++ List.replicate 30 0
  command_length := 2
  response_buffer := [0x01, 0x02, 0x03] ++ List.replicate 29 0
  response_length := 3

end Bridge

/-! ## Theorems: target registration and event dispatch -/

namespace IicSlave

/-- C1: on an instance that already holds a live registration `c0`, `register` with any
configuration `c` returns `-EBUSY` and leaves the instance data as it was, so `c0` is
still bound; every event delivered afterwards has the effect it had before the call, and
that effect depends on the configuration stored at `c0` only, not on the one at `c`. -/
theorem register_already_bound {U Ctrl : Type} (hal : Hal Ctrl)
    (data : i2c_ra_iic_slave_data Ctrl) (c0 c : Nat)
    (hlive : c0 ≠ NULL) (hbound : data.target_config = c0) :
    i2c_ra_iic_slave_target_register hal data c = (data, - EBUSY) ∧
    (i2c_ra_iic_slave_target_register hal data c).1.target_config = c0 ∧
    (∀ (mem : Nat → i2c_target_config U) (ev : i2c_slave_event_t) (w : U),
      iic_slave_callback mem (i2c_ra_iic_slave_target_register hal data c).1 ev w
        = iic_slave_callback mem data ev w) ∧
    (∀ (mem mem' : Nat → i2c_target_config U) (ev : i2c_slave_event_t) (w : U),
      mem c0 = mem' c0 →
      iic_slave_callback mem (i2c_ra_iic_slave_target_register hal data c).1 ev w
        = iic_slave_callback mem' (i2c_ra_iic_slave_target_register hal data c).1 ev w) := by
  have hreg : i2c_ra_iic_slave_target_register hal data c = (data, - EBUSY) := by
    unfold i2c_ra_iic_slave_target_register
    rw [if_pos (by rw [hbound]; exact hlive)]
  refine ⟨hreg, by rw [hreg]; exact hbound, fun mem ev w => by rw [hreg], ?_⟩
  intro mem mem' ev w hmem
  rw [hreg]
  unfold iic_slave_callback
  rw [hbound, hmem]

/-- Witness of C1: the instance is bound to address `1`; registering address `2` is
refused and a receive-request still reaches the handlers with argument `1`. -/
theorem register_already_bound_witness :
    (1 : Nat) ≠ NULL ∧
    i2c_ra_iic_slave_target_register hal_ok { ctrl := none, target_config := 1 } 2
      = ({ ctrl := none, target_config := 1 }, - EBUSY) ∧
    iic_slave_callback logging_mem
      (i2c_ra_iic_slave_target_register hal_ok { ctrl := none, target_config := 1 } 2).1
      i2c_slave_event_t.I2C_SLAVE_EVENT_RX_REQUEST []
      = [Invocation.write_requested 1] :=
  have h := register_already_bound (U := List Invocation) hal_ok
    { ctrl := none, target_config := 1 } 1 2 (by decide) rfl
  ⟨by decide, h.1, (h.2.2.1 logging_mem _ []).trans rfl⟩

/-- C2: `unregister` with a configuration that is not the one currently in the slot
returns `-EINVAL` and leaves the instance data, the slot included, as it was. -/
theorem unregister_not_bound {Ctrl : Type} (data : i2c_ra_iic_slave_data Ctrl) (c : Nat)
    (hne : data.target_config ≠ c) :
    i2c_ra_iic_slave_target_unregister data c = (data, - EINVAL) ∧
    (i2c_ra_iic_slave_target_unregister data c).1.target_config = data.target_config := by
  have h : i2c_ra_iic_slave_target_unregister data c = (data, - EINVAL) := by
    unfold i2c_ra_iic_slave_target_unregister
    rw [if_pos hne]
  exact ⟨h, by rw [h]⟩

/-- Witness of C2: the slot holds address `1`, `unregister` is called with address `2`. -/
theorem unregister_not_bound_witness :
    (1 : Nat) ≠ 2 ∧
    i2c_ra_iic_slave_target_unregister
      ({ ctrl := some fsp_callback.iic_slave_callback, target_config := 1 } :
        i2c_ra_iic_slave_data (Option fsp_callback)) 2
      = ({ ctrl := some fsp_callback.iic_slave_callback, target_config := 1 }, - EINVAL) :=
  ⟨by decide,
    (unregister_not_bound
      ({ ctrl := some fsp_callback.iic_slave_callback, target_config := 1 } :
        i2c_ra_iic_slave_data (Option fsp_callback)) 2 (by decide)).1⟩

/-- C3: with a target registered whose callback table has all three handlers, an event
has exactly the effect of one call of the handler the table of the source gives, applied
to the bound configuration: `write_requested` for receive-request and general-call,
`read_requested` for transmit-request, `stop` for receive-complete, transmit-complete and
aborted; any other event code leaves the application state untouched. -/
theorem normalizer_mapping {U Ctrl : Type} (mem : Nat → i2c_target_config U)
    (data : i2c_ra_iic_slave_data Ctrl)
    (wr : Nat → U → U × Int) (rd : Nat → U → U × Nat × Int) (st : Nat → U → U × Int)
    (w : U) (hbound : data.target_config ≠ NULL)
    (hfull : mem data.target_config =
      { callbacks := some { write_requested := some wr, read_requested := some rd,
                            stop := some st } }) :
    iic_slave_callback mem data i2c_slave_event_t.I2C_SLAVE_EVENT_RX_REQUEST w
      = (wr data.target_config w).1 ∧
    iic_slave_callback mem data i2c_slave_event_t.I2C_SLAVE_EVENT_GENERAL_CALL w
      = (wr data.target_config w).1 ∧
    iic_slave_callback mem data i2c_slave_event_t.I2C_SLAVE_EVENT_TX_REQUEST w
      = (rd data.target_config w).1 ∧
    iic_slave_callback mem data i2c_slave_event_t.I2C_SLAVE_EVENT_RX_COMPLETE w
      = (st data.target_config w).1 ∧
    iic_slave_callback mem data i2c_slave_event_t.I2C_SLAVE_EVENT_TX_COMPLETE w
      = (st data.target_config w).1 ∧
    iic_slave_callback mem data i2c_slave_event_t.I2C_SLAVE_EVENT_ABORTED w
      = (st data.target_config w).1 ∧
    (∀ code : Nat, iic_slave_callback mem data (i2c_slave_event_t.other code) w = w) := by
  simp [iic_slave_callback, hbound, hfull]

/-- Witness of C3: with the logging target bound at address `7`, a transmit-request
logs exactly one `read_requested 7` and an unknown code logs nothing. -/
theorem normalizer_mapping_witness :
    (7 : Nat) ≠ NULL ∧
    iic_slave_callback logging_mem
      ({ ctrl := (), target_config := 7 } : i2c_ra_iic_slave_data Unit)
      i2c_slave_event_t.I2C_SLAVE_EVENT_TX_REQUEST [] = [Invocation.read_requested 7] ∧
    iic_slave_callback logging_mem
      ({ ctrl := (), target_config := 7 } : i2c_ra_iic_slave_data Unit)
      (i2c_slave_event_t.other 9) [] = [] :=
  have h := normalizer_mapping logging_mem
    ({ ctrl := (), target_config := 7 } : i2c_ra_iic_slave_data Unit)
    (fun cfg w => (w ++ [Invocation.write_requested cfg], 0))
    (fun cfg w => (w ++ [Invocation.read_requested cfg], 0x5A, 0))
    (fun cfg w => (w ++ [Invocation.stop cfg], 0)) [] (by decide) rfl
  ⟨by decide, h.2.2.1, h.2.2.2.2.2.2 9⟩

end IicSlave

/-! ## Theorems: the bridge handler -/

namespace Bridge

/-- A byte count below `2 ^ 32` is stored in a `size_t` unchanged. -/
theorem size_t_of_int_natCast (n : Nat) (h : n < 2 ^ 32) : size_t_of_int (n : Int) = n := by
  unfold size_t_of_int
  have h' : ((n : Int) % 2 ^ 32) = (n : Int) :=
    Int.emod_eq_of_lt (Int.ofNat_nonneg n) (by exact_mod_cast h)
  rw [h']
  exact Int.toNat_ofNat n

/-- The bytes after the first of a drained command, read from the buffer that starts
with the command. -/
theorem payload_of_command (cmd rest : List Nat) (h : 1 ≤ cmd.length) :
    ((cmd ++ rest).drop 1).take (cmd.length - 1) = cmd.tail := by
  cases cmd with
  | nil => simp at h
  | cons a t => simp

/-- The first byte of the buffer that starts with a non-empty command. -/
theorem address_of_command (cmd rest : List Nat) (h : 1 ≤ cmd.length) :
    (cmd ++ rest).getD 0 0 = cmd.getD 0 0 := by
  cases cmd with
  | nil => simp at h
  | cons a t => simp

/-- C4: when the slave read drains a command `cmd` of length `n ≥ 2` into the 32-byte
Command Buffer, the handler issues exactly one master write, to the address `cmd[0]`,
with the payload `cmd[1..n-1]` (the tail of `cmd`) and the length `n - 1`; when that
write succeeds it is the second call made, right after the slave read and before the
master read. -/
theorem forward_strips_address (bus : Bus) (s : State) (cmd rest : List Nat)
    (hdrain : bus.i2c_slave_read s.command_buffer COMMAND_BUFFER_SIZE
      = (cmd ++ rest, (cmd.length : Int)))
    (hcap : (cmd ++ rest).length = COMMAND_BUFFER_SIZE)
    (hlen : 2 ≤ cmd.length) :
    (i2c_slave_callback bus s Event.I2C_SLAVE_EVENT_WRITE_RECEIVED).2.filter
        BusCall.is_i2c_write
      = [BusCall.i2c_write cmd.tail (cmd.length - 1) (cmd.getD 0 0)] ∧
    cmd.tail.length = cmd.length - 1 ∧
    (bus.i2c_write cmd.tail (cmd.length - 1) (cmd.getD 0 0) = 0 →
      (i2c_slave_callback bus s Event.I2C_SLAVE_EVENT_WRITE_RECEIVED).2.take 3
        = [BusCall.i2c_slave_read COMMAND_BUFFER_SIZE,
           BusCall.i2c_write cmd.tail (cmd.length - 1) (cmd.getD 0 0),
           BusCall.i2c_read RESPONSE_BUFFER_SIZE (cmd.getD 0 0)]) := by
  have hle : cmd.length ≤ 32 := by
    have := hcap; simp [COMMAND_BUFFER_SIZE] at this; omega
  have hsz : size_t_of_int (cmd.length : Int) = cmd.length :=
    size_t_of_int_natCast _ (by omega)
  have hpay := payload_of_command cmd rest (by omega)
  have haddr := address_of_command cmd rest (by omega)
  have hpos : 0 < cmd.length := by omega
  refine ⟨?_, by simp, ?_⟩
  · simp only [i2c_slave_callback, hdrain, hsz, hpay, haddr, gt_iff_lt, if_pos hpos]
    split_ifs <;> simp [BusCall.is_i2c_write]
  · intro hw
    simp only [i2c_slave_callback, hdrain, hsz, hpay, haddr, gt_iff_lt, if_pos hpos,
      ne_eq, hw, not_true_eq_false, if_false]
    split_ifs <;> simp

/-- Witness of C4: the command `[0x10, 0x01]` of the file header is forwarded as the
one-byte payload `[0x01]` to address `0x10`. -/
theorem forward_strips_address_witness :
    (i2c_slave_callback bus_header initial Event.I2C_SLAVE_EVENT_WRITE_RECEIVED).2.filter
        BusCall.is_i2c_write
      = [BusCall.i2c_write [0x01] 1 0x10] :=
  (forward_strips_address bus_header initial [0x10, 0x01] (List.replicate 30 0)
    rfl (by decide) (by decide)).1

/-- C5, as stated, fails on the header's test case: after the host wrote `[0x10, 0x01]`
and the sensor answered `[0xAA, 0xBB, 0xCC, 0xDD]`, the next read-requested event
transmits the 22 bytes of the status string, not the sensor's answer. -/
theorem read_after_reply_sends_status :
    (i2c_slave_callback bus_header
        (i2c_slave_callback bus_header initial Event.I2C_SLAVE_EVENT_WRITE_RECEIVED).1
        Event.I2C_SLAVE_EVENT_READ_REQUESTED).2
      = [BusCall.i2c_slave_write
          [0x52, 0x41, 0x34, 0x4D, 0x32, 0x20, 0x49, 0x32, 0x43, 0x20, 0x42, 0x72, 0x69,
           0x64, 0x67, 0x65, 0x20, 0x52, 0x65, 0x61, 0x64, 0x79] 22] ∧
    (i2c_slave_callback bus_header
        (i2c_slave_callback bus_header initial Event.I2C_SLAVE_EVENT_WRITE_RECEIVED).1
        Event.I2C_SLAVE_EVENT_READ_REQUESTED).2
      ≠ [BusCall.i2c_slave_write [0xAA, 0xBB, 0xCC, 0xDD] 4] := by
  decide

/-- C5, amended: when a non-empty command is forwarded successfully and the master read
returns a non-empty reply `r`, the handler passes exactly `r`, with its length, to the
slave write primitive within the same write-received event, as the call right after the
master read; a read-requested event that follows transmits the status string. -/
theorem reply_sent_in_write_event (bus bus' : Bus) (s : State) (cmd rest r rest' : List Nat)
    (hdrain : bus.i2c_slave_read s.command_buffer COMMAND_BUFFER_SIZE
      = (cmd ++ rest, (cmd.length : Int)))
    (hcap : (cmd ++ rest).length = COMMAND_BUFFER_SIZE)
    (hlen : 1 ≤ cmd.length)
    (hwrite : bus.i2c_write cmd.tail (cmd.length - 1) (cmd.getD 0 0) = 0)
    (hreply : bus.i2c_read s.response_buffer RESPONSE_BUFFER_SIZE (cmd.getD 0 0)
      = (r ++ rest', (r.length : Int)))
    (hrcap : (r ++ rest').length = RESPONSE_BUFFER_SIZE)
    (hr : r ≠ []) :
    (i2c_slave_callback bus s Event.I2C_SLAVE_EVENT_WRITE_RECEIVED).2
      = [BusCall.i2c_slave_read COMMAND_BUFFER_SIZE,
         BusCall.i2c_write cmd.tail (cmd.length - 1) (cmd.getD 0 0),
         BusCall.i2c_read RESPONSE_BUFFER_SIZE (cmd.getD 0 0),
         BusCall.i2c_slave_write r r.length] ∧
    (i2c_slave_callback bus'
        (i2c_slave_callback bus s Event.I2C_SLAVE_EVENT_WRITE_RECEIVED).1
        Event.I2C_SLAVE_EVENT_READ_REQUESTED).2
      = [BusCall.i2c_slave_write ("RA4M2 I2C Bridge Ready".toList.map Char.toNat) 22] := by
  have hle : cmd.length ≤ 32 := by
    have := hcap; simp [COMMAND_BUFFER_SIZE] at this; omega
  have hrle : r.length ≤ 32 := by
    have := hrcap; simp [RESPONSE_BUFFER_SIZE] at this; omega
  have hsz : size_t_of_int (cmd.length : Int) = cmd.length :=
    size_t_of_int_natCast _ (by omega)
  have hrsz : size_t_of_int (r.length : Int) = r.length :=
    size_t_of_int_natCast _ (by omega)
  have hpay := payload_of_command cmd rest hlen
  have haddr := address_of_command cmd rest hlen
  have hpos : 0 < cmd.length := by omega
  have hrpos : 0 < r.length := List.length_pos.mpr hr
  constructor
  · simp only [i2c_slave_callback, hdrain, hsz, hpay, haddr, gt_iff_lt, if_pos hpos,
      ne_eq, hwrite, not_true_eq_false, if_false, hreply, hrsz, if_pos hrpos]
    simp
  · simp only [i2c_slave_callback]
    decide

/-- Witness of C5, amended: on the header's test case the write-received event itself
ends with the slave write of `[0xAA, 0xBB, 0xCC, 0xDD]`. -/
theorem reply_sent_in_write_event_witness :
    (i2c_slave_callback bus_header initial Event.I2C_SLAVE_EVENT_WRITE_RECEIVED).2
      = [BusCall.i2c_slave_read 32, BusCall.i2c_write [0x01] 1 0x10,
         BusCall.i2c_read 32 0x10, BusCall.i2c_slave_write [0xAA, 0xBB, 0xCC, 0xDD] 4] :=
  (reply_sent_in_write_event bus_header bus_header initial [0x10, 0x01]
    (List.replicate 30 0) [0xAA, 0xBB, 0xCC, 0xDD] (List.replicate 28 0)
    rfl (by decide) (by decide) rfl rfl (by decide) (by decide)).1

/-- C6, as stated, fails for a command of length 1: the host wrote the single byte
`[0x10]` and the handler issues a master write of zero bytes to address `0x10`. -/
theorem address_only_command_is_forwarded :
    (i2c_slave_callback bus_address_only initial Event.I2C_SLAVE_EVENT_WRITE_RECEIVED).2
      = [BusCall.i2c_slave_read 32, BusCall.i2c_write [] 0 0x10, BusCall.i2c_read 32 0x10] ∧
    (i2c_slave_callback bus_address_only initial
        Event.I2C_SLAVE_EVENT_WRITE_RECEIVED).2.filter BusCall.is_i2c_write ≠ [] := by
  decide

/-- C6, amended: for a drained command of length 0 the handler calls the slave read and
nothing else, so no master write is issued; for a drained command of length 1 it issues
exactly one master write, of zero bytes, to the address given by that byte. -/
theorem short_command (bus : Bus) (s : State) (cmd rest : List Nat)
    (hdrain : bus.i2c_slave_read s.command_buffer COMMAND_BUFFER_SIZE
      = (cmd ++ rest, (cmd.length : Int)))
    (hshort : cmd.length < 2) :
    (cmd.length = 0 →
      (i2c_slave_callback bus s Event.I2C_SLAVE_EVENT_WRITE_RECEIVED).2
        = [BusCall.i2c_slave_read COMMAND_BUFFER_SIZE]) ∧
    (cmd.length = 1 →
      (i2c_slave_callback bus s Event.I2C_SLAVE_EVENT_WRITE_RECEIVED).2.filter
          BusCall.is_i2c_write
        = [BusCall.i2c_write [] 0 (cmd.getD 0 0)]) := by
  have hsz : size_t_of_int (cmd.length : Int) = cmd.length :=
    size_t_of_int_natCast _ (by omega)
  constructor
  · intro h0
    have hz : ¬ 0 < cmd.length := by omega
    simp only [i2c_slave_callback, hdrain, hsz, gt_iff_lt, if_neg hz]
  · intro h1
    have hpay := payload_of_command cmd rest (by omega)
    have haddr := address_of_command cmd rest (by omega)
    have htail : cmd.tail = [] := by
      apply List.eq_nil_of_length_eq_zero
      simp [h1]
    have hpos : 0 < cmd.length := by omega
    simp only [i2c_slave_callback, hdrain, hsz, hpay, haddr, gt_iff_lt, if_pos hpos]
    rw [htail, h1]
    split_ifs <;> simp [BusCall.is_i2c_write]

/-- Witness of C6, amended: the single byte `[0x10]` gives one zero-length master write
to address `0x10`. -/
theorem short_command_witness :
    (i2c_slave_callback bus_address_only initial
        Event.I2C_SLAVE_EVENT_WRITE_RECEIVED).2.filter BusCall.is_i2c_write
      = [BusCall.i2c_write [] 0 0x10] :=
  (short_command bus_address_only initial [0x10] (List.replicate 31 0) rfl (by decide)).2 rfl

/-- C7: in every state of the bridge variables, whatever the Response Buffer and its
recorded length hold, a read-requested event makes exactly one call, the slave write of
the 22 characters of "RA4M2 I2C Bridge Ready" without the terminating NUL, and leaves
the variables as they were. -/
theorem read_requested_sends_status (bus : Bus) (s : State) :
    i2c_slave_callback bus s Event.I2C_SLAVE_EVENT_READ_REQUESTED
      = (s, [BusCall.i2c_slave_write ("RA4M2 I2C Bridge Ready".toList.map Char.toNat) 22]) ∧
    ("RA4M2 I2C Bridge Ready".toList.map Char.toNat).length = 22 ∧
    0 ∉ "RA4M2 I2C Bridge Ready".toList.map Char.toNat := by
  refine ⟨?_, by decide, by decide⟩
  simp only [i2c_slave_callback]
  have h : status.take (status.length - 1)
      = "RA4M2 I2C Bridge Ready".toList.map Char.toNat := by decide
  have hl : status.length - 1 = 22 := by decide
  rw [h, hl]

/-- C8 fails on the code: the host wrote `[0x10, 0x01]`, the master write succeeded and
the master read returned `-EIO`; the handler records `2 ^ 32 - 5` as the Response Buffer
length and passes that length to the slave write primitive. -/
theorem read_error_recorded_as_length :
    (i2c_slave_callback bus_read_error initial
        Event.I2C_SLAVE_EVENT_WRITE_RECEIVED).1.response_length = 4294967291 ∧
    RESPONSE_BUFFER_SIZE <
      (i2c_slave_callback bus_read_error initial
        Event.I2C_SLAVE_EVENT_WRITE_RECEIVED).1.response_length ∧
    (i2c_slave_callback bus_read_error initial Event.I2C_SLAVE_EVENT_WRITE_RECEIVED).2
      = [BusCall.i2c_slave_read 32, BusCall.i2c_write [0x01] 1 0x10,
         BusCall.i2c_read 32 0x10,
         BusCall.i2c_slave_write (List.replicate 32 0) 4294967291] := by
  decide

end Bridge

/-! ## Theorems: registering on an empty slot, unregistering the bound target -/

namespace IicSlave

/-- C9, as stated, fails when the HAL refuses the callback: on an empty slot, with the
HAL reporting an error from `R_IIC_SLAVE_CallbackSet`, `register` returns `-EIO`, not 0,
and the slot is empty afterwards, so configuration `1` is not bound. -/
theorem register_fails_when_hal_refuses :
    i2c_ra_iic_slave_target_register hal_not_open { ctrl := none, target_config := NULL } 1
      = ({ ctrl := none, target_config := NULL }, - EIO) ∧
    (i2c_ra_iic_slave_target_register hal_not_open
      { ctrl := none, target_config := NULL } 1).2 ≠ 0 ∧
    (i2c_ra_iic_slave_target_register hal_not_open
      { ctrl := none, target_config := NULL } 1).1.target_config ≠ 1 := by
  refine ⟨rfl, by decide, by decide⟩

/-- C9, amended: on an instance with an empty slot, `register` hands the event handler
`iic_slave_callback` to the HAL's `R_IIC_SLAVE_CallbackSet`; when the HAL reports
`FSP_SUCCESS`, `register` returns 0 and leaves `c` in the slot, with the control block
the HAL produced; when the HAL reports an error, `register` returns `-EIO` and the slot
is empty again. -/
theorem register_on_empty_slot {Ctrl : Type} (hal : Hal Ctrl)
    (data : i2c_ra_iic_slave_data Ctrl) (c : Nat) (hempty : data.target_config = NULL) :
    ((hal.R_IIC_SLAVE_CallbackSet data.ctrl fsp_callback.iic_slave_callback).2 = FSP_SUCCESS →
      i2c_ra_iic_slave_target_register hal data c
        = ({ ctrl := (hal.R_IIC_SLAVE_CallbackSet data.ctrl
                        fsp_callback.iic_slave_callback).1,
             target_config := c }, 0)) ∧
    ((hal.R_IIC_SLAVE_CallbackSet data.ctrl fsp_callback.iic_slave_callback).2 ≠ FSP_SUCCESS →
      i2c_ra_iic_slave_target_register hal data c
        = ({ ctrl := (hal.R_IIC_SLAVE_CallbackSet data.ctrl
                        fsp_callback.iic_slave_callback).1,
             target_config := NULL }, - EIO)) := by
  constructor
  · intro hok
    simp [i2c_ra_iic_slave_target_register, hempty, hok]
  · intro herr
    simp [i2c_ra_iic_slave_target_register, hempty, herr]

/-- Witness of C9, amended: with a HAL that accepts the callback, registering address `1`
on an empty slot returns 0, binds `1` and leaves `iic_slave_callback` installed. -/
theorem register_on_empty_slot_witness :
    i2c_ra_iic_slave_target_register hal_ok { ctrl := none, target_config := NULL } 1
      = ({ ctrl := some fsp_callback.iic_slave_callback, target_config := 1 }, 0) :=
  (register_on_empty_slot hal_ok { ctrl := none, target_config := NULL } 1 rfl).1 rfl

/-- C10: on an instance bound to `c`, `unregister` with `c` returns 0 and empties the
slot; afterwards no event of any kind changes the application state, whatever the
handlers in memory are, and `register` with any configuration and any HAL does not
return `-EBUSY`. -/
theorem unregister_bound {U Ctrl : Type} (data : i2c_ra_iic_slave_data Ctrl) (c : Nat)
    (hbound : data.target_config = c) :
    i2c_ra_iic_slave_target_unregister data c
      = ({ ctrl := data.ctrl, target_config := NULL }, 0) ∧
    (i2c_ra_iic_slave_target_unregister data c).1.target_config = NULL ∧
    (∀ (mem : Nat → i2c_target_config U) (ev : i2c_slave_event_t) (w : U),
      iic_slave_callback mem (i2c_ra_iic_slave_target_unregister data c).1 ev w = w) ∧
    (∀ (hal : Hal Ctrl) (c' : Nat),
      (i2c_ra_iic_slave_target_register hal
        (i2c_ra_iic_slave_target_unregister data c).1 c').2 ≠ - EBUSY) := by
  have h : i2c_ra_iic_slave_target_unregister data c
      = ({ ctrl := data.ctrl, target_config := NULL }, 0) := by
    simp [i2c_ra_iic_slave_target_unregister, hbound]
  refine ⟨h, by rw [h], ?_, ?_⟩
  · intro mem ev w
    rw [h]
    simp [iic_slave_callback]
  · intro hal c'
    rw [h]
    simp only [i2c_ra_iic_slave_target_register]
    split_ifs <;> simp_all [EBUSY, EIO]

/-- Witness of C10: the logging target bound at address `1` is unregistered; a later
receive-request logs nothing and registering address `2` then succeeds. -/
theorem unregister_bound_witness :
    i2c_ra_iic_slave_target_unregister
      ({ ctrl := some fsp_callback.iic_slave_callback, target_config := 1 } :
        i2c_ra_iic_slave_data (Option fsp_callback)) 1
      = ({ ctrl := some fsp_callback.iic_slave_callback, target_config := NULL }, 0) ∧
    iic_slave_callback logging_mem
      (i2c_ra_iic_slave_target_unregister
        ({ ctrl := some fsp_callback.iic_slave_callback, target_config := 1 } :
          i2c_ra_iic_slave_data (Option fsp_callback)) 1).1
      i2c_slave_event_t.I2C_SLAVE_EVENT_RX_REQUEST [] = [] :=
  have h := unregister_bound (U := List Invocation)
    ({ ctrl := some fsp_callback.iic_slave_callback, target_config := 1 } :
      i2c_ra_iic_slave_data (Option fsp_callback)) 1 rfl
  ⟨h.1, h.2.2.1 logging_mem i2c_slave_event_t.I2C_SLAVE_EVENT_RX_REQUEST []⟩

end IicSlave

/-! ## Theorems: events without a target, a failed forward, the byte of a read request -/

namespace IicSlave

/-- C11: on an instance whose slot is empty, an event of any kind, whatever the memory
holds, leaves the application state as it was, so no handler ran, and leaves the
instance data as it was; the handler is a `void` function and has no result in which an
error could be reported. -/
theorem event_without_target {U Ctrl : Type} (mem : Nat → i2c_target_config U)
    (data : i2c_ra_iic_slave_data Ctrl) (ev : i2c_slave_event_t) (w : U)
    (hnone : data.target_config = NULL) :
    iic_slave_callback mem data ev w = w ∧
    iic_slave_callback_effect mem data ev w = (data, w) := by
  have h : iic_slave_callback mem data ev w = w := by
    unfold iic_slave_callback
    rw [if_pos hnone]
  exact ⟨h, by unfold iic_slave_callback_effect; rw [h]⟩

/-- Witness of C11: the slot is empty and the memory holds the logging target at every
address; a receive-request logs nothing and leaves the instance data as it was. -/
theorem event_without_target_witness :
    iic_slave_callback_effect logging_mem
      ({ ctrl := some fsp_callback.iic_slave_callback, target_config := NULL } :
        i2c_ra_iic_slave_data (Option fsp_callback))
      i2c_slave_event_t.I2C_SLAVE_EVENT_RX_REQUEST []
      = ({ ctrl := some fsp_callback.iic_slave_callback, target_config := NULL }, []) :=
  (event_without_target logging_mem
    ({ ctrl := some fsp_callback.iic_slave_callback, target_config := NULL } :
      i2c_ra_iic_slave_data (Option fsp_callback))
    i2c_slave_event_t.I2C_SLAVE_EVENT_RX_REQUEST [] rfl).2

end IicSlave

namespace Bridge

/-- C12: when the slave read drains a non-empty command `cmd` into the 32-byte Command
Buffer and the master write of its payload returns an error, the handler makes exactly
two calls, the slave read and that master write: no master read and no slave write is
issued, and the Response Buffer and its recorded length are what they were before the
event. -/
theorem failed_write_aborts_cycle (bus : Bus) (s : State) (cmd rest : List Nat)
    (hdrain : bus.i2c_slave_read s.command_buffer COMMAND_BUFFER_SIZE
      = (cmd ++ rest, (cmd.length : Int)))
    (hcap : (cmd ++ rest).length = COMMAND_BUFFER_SIZE)
    (hlen : 1 ≤ cmd.length)
    (hfail : bus.i2c_write cmd.tail (cmd.length - 1) (cmd.getD 0 0) ≠ 0) :
    (i2c_slave_callback bus s Event.I2C_SLAVE_EVENT_WRITE_RECEIVED).2
      = [BusCall.i2c_slave_read COMMAND_BUFFER_SIZE,
         BusCall.i2c_write cmd.tail (cmd.length - 1) (cmd.getD 0 0)] ∧
    (∀ c ∈ (i2c_slave_callback bus s Event.I2C_SLAVE_EVENT_WRITE_RECEIVED).2,
      (∀ n a, c ≠ BusCall.i2c_read n a) ∧ (∀ b n, c ≠ BusCall.i2c_slave_write b n)) ∧
    (i2c_slave_callback bus s Event.I2C_SLAVE_EVENT_WRITE_RECEIVED).1.response_buffer
      = s.response_buffer ∧
    (i2c_slave_callback bus s Event.I2C_SLAVE_EVENT_WRITE_RECEIVED).1.response_length
      = s.response_length := by
  have hle : cmd.length ≤ 32 := by
    have := hcap; simp [COMMAND_BUFFER_SIZE] at this; omega
  have hsz : size_t_of_int (cmd.length : Int) = cmd.length :=
    size_t_of_int_natCast _ (by omega)
  have hpay := payload_of_command cmd rest hlen
  have haddr := address_of_command cmd rest hlen
  have hpos : 0 < cmd.length := by omega
  have hrun : i2c_slave_callback bus s Event.I2C_SLAVE_EVENT_WRITE_RECEIVED
      = ({ s with command_buffer := cmd ++ rest, command_length := cmd.length },
         [BusCall.i2c_slave_read COMMAND_BUFFER_SIZE,
          BusCall.i2c_write cmd.tail (cmd.length - 1) (cmd.getD 0 0)]) := by
    simp only [i2c_slave_callback, hdrain, hsz, hpay, haddr, gt_iff_lt, if_pos hpos,
      ne_eq, hfail, not_false_eq_true, if_true]
    rfl
  rw [hrun]
  refine ⟨rfl, ?_, rfl, rfl⟩
  intro c hc
  simp only [List.mem_cons, List.mem_singleton, List.not_mem_nil, or_false] at hc
  rcases hc with h | h <;> subst h <;> exact ⟨fun _ _ => by simp, fun _ _ => by simp⟩

/-- Witness of C12: a reply `[0x01, 0x02, 0x03]` is buffered from an earlier cycle, the
host writes `[0x10, 0x01]` and the master write fails; the handler stops after the
master write and the buffered reply and its length 3 are still there. -/
theorem failed_write_aborts_cycle_witness :
    (i2c_slave_callback bus_write_error after_reply Event.I2C_SLAVE_EVENT_WRITE_RECEIVED).2
      = [BusCall.i2c_slave_read 32, BusCall.i2c_write [0x01] 1 0x10] ∧
    (i2c_slave_callback bus_write_error after_reply
        Event.I2C_SLAVE_EVENT_WRITE_RECEIVED).1.response_buffer
      = [0x01, 0x02, 0x03] ++ List.replicate 29 0 ∧
    (i2c_slave_callback bus_write_error after_reply
        Event.I2C_SLAVE_EVENT_WRITE_RECEIVED).1.response_length = 3 :=
  have h := failed_write_aborts_cycle bus_write_error after_reply [0x10, 0x01]
    (List.replicate 30 0) rfl (by decide) (by decide) (by decide)
  ⟨h.1, h.2.2.1, h.2.2.2⟩

end Bridge

namespace IicSlave

/-- C13 fails on the code: with a target bound at address `7` whose `read_requested`
handler stores the byte `b`, a transmit-request runs that handler once and the byte goes
no further: what the call leaves behind is the same for every `b`, for `0x5A` as for
`0xA5`, and holds neither. -/
theorem read_requested_byte_dropped :
    (∀ b : Nat,
      iic_slave_callback_effect (byte_mem b)
        ({ ctrl := some fsp_callback.iic_slave_callback, target_config := 7 } :
          i2c_ra_iic_slave_data (Option fsp_callback))
        i2c_slave_event_t.I2C_SLAVE_EVENT_TX_REQUEST []
        = ({ ctrl := some fsp_callback.iic_slave_callback, target_config := 7 },
           [Invocation.read_requested 7])) ∧
    iic_slave_callback (byte_mem 0x5A)
        ({ ctrl := some fsp_callback.iic_slave_callback, target_config := 7 } :
          i2c_ra_iic_slave_data (Option fsp_callback))
        i2c_slave_event_t.I2C_SLAVE_EVENT_TX_REQUEST []
      = iic_slave_callback (byte_mem 0xA5)
        ({ ctrl := some fsp_callback.iic_slave_callback, target_config := 7 } :
          i2c_ra_iic_slave_data (Option fsp_callback))
        i2c_slave_event_t.I2C_SLAVE_EVENT_TX_REQUEST [] :=
  ⟨fun _ => rfl, rfl⟩

end IicSlave
